import Mathlib

/-!
Verification development for the reconciliation-agent core:
the sandboxed code executor (backend/app/services/code_executor.py),
the evaluator decision rule (backend/app/core/nodes.py) and the
feedback path (backend/app/core/agent.py).  Python functions are
embedded shallowly: string scanning is reproduced over ASCII text,
machine floats are modelled as rationals, and the behaviour of a
model-generated Python program is an abstract parameter (the program
can end normally with some bindings, raise, fail to parse, or
diverge).
-/

namespace ReconAgent

/-! ## Character classes of the Python `re` module, restricted to ASCII text.
All denylist patterns consist of ASCII word characters, so for ASCII
source text this matcher agrees with `re.search(..., re.IGNORECASE)`. -/

/-- Word character for the regex boundary `\b` (ASCII fragment of Python `\w`). -/
def isWordChar (c : Char) : Bool :=
  (65 ≤ c.toNat && c.toNat ≤ 90) || (97 ≤ c.toNat && c.toNat ≤ 122) ||
  (48 ≤ c.toNat && c.toNat ≤ 57) || c = '_'

/-- Whitespace for the regex class `\s` (ASCII fragment). -/
def isPySpace (c : Char) : Bool :=
  c = ' ' || c = '\t' || c = '\n' || c = '\x0d' || c = '\x0b' || c = '\x0c'

/-- Case-insensitive match of one pattern character `p` (always lowercase or
an underscore in the denylist) against a source character `c`,
as `re.IGNORECASE` does on ASCII. -/
def charIMatch (p c : Char) : Bool :=
  p = c || (97 ≤ p.toNat && p.toNat ≤ 122 && c.toNat + 32 = p.toNat)

/-- Match the literal word `pat` case-insensitively at the head of `s`;
return the consumed source fragment and the remainder. -/
def matchWord : List Char → List Char → Option (List Char × List Char)
  | [], s => some ([], s)
  | _ :: _, [] => none
  | p :: ps, c :: cs =>
      if charIMatch p c then
        match matchWord ps cs with
        | some (m, r) => some (c :: m, r)
        | none => none
      else none

/-- Split off the longest run of leading whitespace (the regex `\s*`). -/
def takeSpaces : List Char → List Char × List Char
  | [] => ([], [])
  | c :: cs =>
      if isPySpace c then
        let (m, r) := takeSpaces cs
        (c :: m, r)
      else ([], c :: cs)

/-- Trailing word boundary `\b`: the next character, if any, is not a word character. -/
def noWordAhead : List Char → Bool
  | [] => true
  | c :: _ => !isWordChar c

/-- Shapes of the entries of `CodeExecutor.BLOCKED_PATTERNS`.  Every entry of
the source list is of one of these three forms. -/
inductive PatSpec where
  /-- The pattern form `\bimport\s+m\b` for a module name `m`. -/
  | importMod (m : List Char)
  /-- The pattern form `\bf\s*\(` for a callable name `f`. -/
  | call (f : List Char)
  /-- The pattern form `\bw\b` for a bare word `w`. -/
  | word (w : List Char)

/-- Try to match one pattern at the current position (the leading `\b` is
checked by the caller).  Returns the matched fragment, which is what
`match.group()` yields in the source. -/
def matchPatAt : PatSpec → List Char → Option (List Char)
  | .importMod m, s =>
      match matchWord ("import".toList) s with
      | none => none
      | some (m1, r1) =>
          let (sp, r2) := takeSpaces r1
          if sp.isEmpty then none
          else
            match matchWord m r2 with
            | none => none
            | some (m2, r3) => if noWordAhead r3 then some (m1 ++ sp ++ m2) else none
  | .call f, s =>
      match matchWord f s with
      | none => none
      | some (m1, r1) =>
          let (sp, r2) := takeSpaces r1
          match r2 with
          | '(' :: _ => some (m1 ++ sp ++ ['('])
          | _ => none
  | .word w, s =>
      match matchWord w s with
      | none => none
      | some (m1, r1) => if noWordAhead r1 then some m1 else none

/-- Scan left to right as `re.search` does, carrying the previous character
for the leading word boundary (every denylist pattern starts with a word
character, so the boundary holds exactly when the previous character is
absent or not a word character). -/
def searchPatAux (p : PatSpec) (prev : Option Char) : List Char → Option (List Char)
  | [] => none
  | c :: cs =>
      let bOk := match prev with
        | none => true
        | some pc => !isWordChar pc
      match (if bOk then matchPatAt p (c :: cs) else none) with
      | some frag => some frag
      | none => searchPatAux p (some c) cs

/-- Search the whole text for one pattern. -/
def searchPat (p : PatSpec) (s : List Char) : Option (List Char) :=
  searchPatAux p none s

/-- The source list `CodeExecutor.BLOCKED_PATTERNS`, in order. -/
def BLOCKED_PATTERNS : List PatSpec :=
  [ .importMod ("os".toList)
  , .importMod ("sys".toList)
  , .importMod ("subprocess".toList)
  , .importMod ("shutil".toList)
  , .importMod ("socket".toList)
  , .importMod ("requests".toList)
  , .importMod ("urllib".toList)
  , .importMod ("http".toList)
  , .call ("__import__".toList)
  , .call ("eval".toList)
  , .call ("exec".toList)
  , .call ("open".toList)
  , .call ("file".toList)
  , .call ("compile".toList)
  , .call ("getattr".toList)
  , .call ("setattr".toList)
  , .call ("delattr".toList)
  , .call ("globals".toList)
  , .call ("locals".toList)
  , .word ("__builtins__".toList)
  , .word ("__class__".toList)
  , .word ("__bases__".toList)
  , .word ("__subclasses__".toList)
  , .word ("__mro__".toList)
  ]

/-- First pattern of the list that matches, returning its fragment
(the loop of `CodeExecutor.validate_code`). -/
def findFirstPat : List PatSpec → List Char → Option (List Char)
  | [], _ => none
  | p :: ps, s =>
      match searchPat p s with
      | some frag => some frag
      | none => findFirstPat ps s

/-- Fragment of the first blocked pattern found in `code`, if any. -/
def findBlocked (code : String) : Option String :=
  (findFirstPat BLOCKED_PATTERNS code.toList).map (fun l => String.mk l)

/-- Embedding of `CodeExecutor.validate_code`: scan the denylist in order and
report the first offending fragment inside the error message. -/
def validate_code (code : String) : Bool × Option String :=
  match findBlocked code with
  | some frag => (false, some ("Blocked pattern detected: " ++ frag))
  | none => (true, none)

/-- Sanity check: a bare denylisted import is found verbatim. -/
theorem findBlocked_import_os : findBlocked ("import os") = some ("import os") := by decide

/-- Sanity check: matching is case-insensitive and the fragment keeps the
case of the source. -/
theorem findBlocked_upper : findBlocked ("IMPORT OS") = some ("IMPORT OS") := by decide

/-- Sanity check: a call pattern tolerates whitespace before the bracket. -/
theorem findBlocked_call_space : findBlocked ("x = eval (y)") = some ("eval (") := by decide

/-- Sanity check: the identity program is clean. -/
theorem findBlocked_ident_clean : findBlocked ("result_df = df_a") = none := by decide

/-- Sanity check: a pandas concat expression is clean. -/
theorem findBlocked_concat_clean :
    findBlocked ("result_df = pd.concat([df_a, df_a])") = none := by decide

/-- Sanity check: an infinite loop is textually clean. -/
theorem findBlocked_loop_clean : findBlocked ("while True:\n    pass") = none := by decide

/-- Sanity check: word boundaries are honoured. -/
theorem findBlocked_boundary : findBlocked ("importos") = none := by decide

/-- Sanity check: dunder attribute access after a dot is found. -/
theorem findBlocked_dunder : findBlocked ("a.__class__") = some ("__class__") := by decide

/-! ## Data model: pandas DataFrames as ordered lists of rows.
A row is a mapping from column name to a scalar cell; `na` is a missing
value (NaN), replaced by the empty-string placeholder by `fillna("")`
before serialisation. -/

/-- Scalar cell value of a table. -/
inductive Cell where
  | str (s : String)
  | num (q : ℚ)
  | na
deriving DecidableEq, Repr

/-- One table row: a mapping from column name to cell value. -/
abbrev Row : Type := List (String × Cell)

/-- A pandas DataFrame, modelled as its ordered list of rows. -/
structure DataFrame where
  rows : List Row
deriving DecidableEq, Repr

/-- Row count, `len(df)` in the source. -/
def DataFrame.len (d : DataFrame) : Nat := d.rows.length

/-- The defined placeholder substituted for missing cells, `fillna("")`. -/
def fillPlaceholder : String := ""

/-- Replace a missing cell by the placeholder. -/
def Cell.fill : Cell → Cell
  | .na => .str fillPlaceholder
  | c => c

/-- Embedding of `df.fillna("")`. -/
def DataFrame.fillnaEmpty (d : DataFrame) : DataFrame :=
  ⟨d.rows.map (fun r => r.map (fun kv => (kv.1, kv.2.fill)))⟩

/-- Embedding of the to_dict conversion with the records orientation: the
list of row mappings. -/
def DataFrame.toRecords (d : DataFrame) : List Row := d.rows

/-! ## The sandboxed program and its abstract behaviour.
The Python text handed to `exec` is arbitrary model output; its behaviour
is a parameter of the embedding.  A run of the program on the two table
copies bound in its scope either ends normally leaving some bindings,
raises a `SyntaxError` at compile time, raises an `Exception` at run
time, or does not terminate within the timeout. -/

/-- A Python value that may be bound to a result variable: either a
DataFrame or some other value, carrying its type name. -/
inductive PyValue where
  | frame (d : DataFrame)
  | other (typeName : String)
deriving DecidableEq, Repr

/-- The three variable bindings the executor looks up in `local_scope`
after `exec` returns; `none` means the program did not bind the name. -/
structure SandboxBindings where
  result_df : Option PyValue
  unmatched_a : Option PyValue
  unmatched_b : Option PyValue
deriving DecidableEq, Repr

/-- Observable behaviour of one run of the program inside `exec`. -/
inductive ProgBehavior where
  /-- The program ends normally, leaving these bindings in its scope. -/
  | ok (b : SandboxBindings)
  /-- The text does not parse: `SyntaxError` with message and line number. -/
  | synErr (msg : String) (lineno : Nat)
  /-- The program raises an `Exception` with this type name and message. -/
  | raises (excType : String) (msg : String)
  /-- The program does not terminate within the wall-clock deadline. -/
  | diverges

/-- A candidate program: its source text (scanned by validation) together
with its behaviour as a function of the two table copies bound in its
scope (the semantics of the cleaned text). -/
structure SandboxProgram where
  text : String
  run : DataFrame → DataFrame → ProgBehavior

/-! ## The execution outcome dictionary.
Failure dictionaries in the source carry only `success`, `error` and
`match_rate`; the remaining keys are absent and modelled by the default
field values below. -/

/-- The dictionary returned by `CodeExecutor.execute`. -/
structure ExecResult where
  success : Bool
  error : Option String
  match_rate : ℚ
  result_df : Option DataFrame := none
  matched : List Row := []
  unmatched_a : List Row := []
  unmatched_b : List Row := []
  match_count : Nat := 0
  total_a : Nat := 0
  total_b : Nat := 0
deriving DecidableEq, Repr

/-- Error message of the missing `result_df` failure, verbatim from the source. -/
def missingResultMsg : String :=
  "Code did not define \x27result_df\x27 variable. The matched records must be stored in a variable named \x27result_df\x27."

/-- Error message of the wrong-result-type failure, verbatim from the source. -/
def wrongTypeMsg (typeName : String) : String :=
  "\x27result_df\x27 must be a pandas DataFrame, got " ++ typeName

/-- Error message of the timeout failure, verbatim from the source. -/
def timeoutMsg (seconds : Nat) : String :=
  "Code execution timed out after " ++ toString seconds ++ " seconds"

/-- Records extracted from an optional unmatched binding: the
`local_scope.get(name, pd.DataFrame())` default together with the
`isinstance(..., pd.DataFrame)` guard of the source. -/
def recordsOrEmpty : Option PyValue → List Row
  | some (.frame d) => d.fillnaEmpty.toRecords
  | some (.other _) => []
  | none => []

/-- Extraction and statistics phase of `CodeExecutor.execute` (lines 198-248):
look up `result_df`, reject a missing or non-DataFrame binding, otherwise
compute the match statistics and serialise the three tables. -/
def extractPhase (b : SandboxBindings) (df_a df_b : DataFrame) : ExecResult :=
  match b.result_df with
  | none => { success := false, error := some missingResultMsg, match_rate := 0 }
  | some (.other typeName) =>
      { success := false, error := some (wrongTypeMsg typeName), match_rate := 0 }
  | some (.frame rdf) =>
      let original_a_count := df_a.len
      let matched_count := rdf.len
      let match_rate : ℚ :=
        if 0 < original_a_count then (matched_count : ℚ) / (original_a_count : ℚ) else 0
      { success := true
      , error := none
      , match_rate := match_rate
      , result_df := some rdf
      , matched := rdf.fillnaEmpty.toRecords
      , unmatched_a := recordsOrEmpty b.unmatched_a
      , unmatched_b := recordsOrEmpty b.unmatched_b
      , match_count := matched_count
      , total_a := original_a_count
      , total_b := df_b.len }

/-- Run phase of `CodeExecutor.execute` (the try block, lines 194-270):
dispatch on the behaviour of the program and on the platform-dependent
deadline of `_timeout_handler`.  `none` models a call that never
returns: the program diverges and the platform is `win32`, where the
context manager yields without installing any alarm. -/
def runPhase (platform : String) (timeoutSecs : Nat) (behavior : ProgBehavior)
    (df_a df_b : DataFrame) : Option ExecResult :=
  match behavior with
  | .ok b => some (extractPhase b df_a df_b)
  | .synErr msg lineno =>
      some { success := false
           , error := some ("SyntaxError: " ++ msg ++ " at line " ++ toString lineno)
           , match_rate := 0 }
  | .raises excType msg =>
      some { success := false, error := some (excType ++ ": " ++ msg), match_rate := 0 }
  | .diverges =>
      if platform = "win32" then none
      else some { success := false, error := some (timeoutMsg timeoutSecs), match_rate := 0 }

/-- Embedding of `CodeExecutor.execute`.  `platform` models `sys.platform`
and `timeoutSecs` models `self.timeout` (default 30 from settings).
Validation runs first; only when it passes is the program behaviour
consulted. -/
def execute (platform : String) (timeoutSecs : Nat) (p : SandboxProgram)
    (df_a df_b : DataFrame) : Option ExecResult :=
  let v := validate_code p.text
  if v.1 = false then
    some { success := false, error := v.2, match_rate := 0 }
  else
    runPhase platform timeoutSecs (p.run df_a df_b) df_a df_b

/-- Dispatch lemma: failed validation short-circuits `execute`. -/
theorem execute_invalid (platform : String) (t : Nat) (p : SandboxProgram)
    (df_a df_b : DataFrame) (hv1 : (validate_code p.text).1 = false) :
    execute platform t p df_a df_b =
      some { success := false, error := (validate_code p.text).2, match_rate := 0 } := by
  simp only [execute]
  rw [if_pos hv1]

/-- Dispatch lemma: passed validation hands over to the run phase. -/
theorem execute_valid (platform : String) (t : Nat) (p : SandboxProgram)
    (df_a df_b : DataFrame) (hv1 : ¬((validate_code p.text).1 = false)) :
    execute platform t p df_a df_b =
      runPhase platform t (p.run df_a df_b) df_a df_b := by
  simp only [execute]
  rw [if_neg hv1]

/-! ## Evaluator decision and routing (backend/app/core/nodes.py and agent.py).
Match rates are rationals; the hard-coded Python float literal `0.95`
is the rational 95/100. -/

/-- Status computed by the `evaluate_results` node from the error flag, the
match rate and the loop counters; `"generating"` is the retry decision
(the conditional edge routes it back to code generation). -/
def evaluate_results (has_error : Bool) (match_rate : ℚ)
    (iterations max_iterations : Nat) : String :=
  if has_error = false ∧ 95/100 ≤ match_rate then "complete"
  else if max_iterations ≤ iterations then "awaiting_feedback"
  else "generating"

/-- The slice of the graph state read by the router `should_continue`. -/
structure RouteState where
  status : String
  execution_error : Option String
  match_rate : ℚ
  iterations : Nat
  max_iterations : Nat

/-- Embedding of `should_continue` (agent.py).  The Python truthiness test
on `execution_error` is `Option.isSome`; executor error messages are
never the empty string. -/
def should_continue (s : RouteState) : String :=
  if s.status = "complete" then "complete"
  else if s.status = "awaiting_feedback" then "await_feedback"
  else if s.status = "generating" ∨ s.status = "executing" ∨ s.status = "evaluating" then
    if s.execution_error.isSome = true ∨ s.match_rate < 95/100 then
      if s.iterations < s.max_iterations then "retry" else "await_feedback"
    else "complete"
  else "retry"

/-! ## Feedback path (agent.py `submit_feedback` and nodes.py `process_feedback`). -/

/-- The slice of a session state touched by the feedback path. -/
structure SessionState where
  session_id : String
  status : String
  user_feedback : Option String
  iterations : Nat
  reasoning_trace : List String
deriving DecidableEq, Repr

/-- Embedding of the `process_feedback` node: append the feedback to the
reasoning trace as one entry and set the status to `"generating"`
(the graph edge re-enters at the generate node).  The iteration counter
is left untouched. -/
def process_feedback (s : SessionState) : SessionState :=
  { s with
    status := "generating"
    reasoning_trace :=
      s.reasoning_trace ++ ["User Feedback Received:\n" ++ s.user_feedback.getD ("")] }

/-- First half of `ReconciliationAgent.submit_feedback`: store the feedback
string and set the status to `"refining"`. -/
def submit_feedback_set (s : SessionState) (feedback : String) : SessionState :=
  { s with user_feedback := some feedback, status := "refining" }

/-- Embedding of `ReconciliationAgent.submit_feedback` up to the point where
the graph resumes at the generate node. -/
def submit_feedback (s : SessionState) (feedback : String) : SessionState :=
  process_feedback (submit_feedback_set s feedback)

/-! ## Heap model of the copy discipline (execute, lines 151-196).
The executor binds `df_a.copy()` and `df_b.copy()` into the program
scope.  To state that the caller tables are never mutated we make object
identity explicit: a heap of DataFrame objects addressed by index,
allocation appends, and the program may overwrite the two objects bound
in its scope with arbitrary functions of what it sees there. -/

/-- A store of DataFrame objects addressed by index. -/
structure Heap where
  dfs : List DataFrame

/-- Read the object at address `r` (total, with a default empty table). -/
def Heap.read (h : Heap) (r : Nat) : DataFrame := h.dfs.getD r ⟨[]⟩

/-- Allocate a fresh object holding `d`; returns the new heap and address. -/
def Heap.alloc (h : Heap) (d : DataFrame) : Heap × Nat :=
  (⟨h.dfs ++ [d]⟩, h.dfs.length)

/-- Overwrite the object at address `r`. -/
def Heap.write (h : Heap) (r : Nat) (d : DataFrame) : Heap :=
  ⟨h.dfs.set r d⟩

/-- A program abstracted by the mutations it performs on the two tables
bound in its scope, each an arbitrary function of their current values. -/
structure MutProgram where
  mutA : DataFrame → DataFrame → DataFrame
  mutB : DataFrame → DataFrame → DataFrame

/-- The copy-then-run discipline of `execute`: bind fresh copies of the two
caller tables, then let the program rewrite its two bound objects at
will.  Returns the final heap and the two addresses bound in the program
scope. -/
def executeOnHeap (h : Heap) (ra rb : Nat) (p : MutProgram) : Heap × Nat × Nat :=
  let (h1, ca) := h.alloc (h.read ra)
  let (h2, cb) := h1.alloc (h1.read rb)
  let h3 := h2.write ca (p.mutA (h2.read ca) (h2.read cb))
  let h4 := h3.write cb (p.mutB (h3.read ca) (h3.read cb))
  (h4, ca, cb)

/-! ## Concrete fixtures used by witnesses and counterexamples. -/

/-- The empty table. -/
def dfEmpty : DataFrame := ⟨[]⟩

/-- A one-row, one-column table. -/
def dfOneRow : DataFrame := ⟨[[("id", Cell.str ("1"))]]⟩

/-! ## List lemmas for the heap model. -/

theorem listGetD_append_left {α : Type} (l l2 : List α) (d : α) :
    ∀ n, n < l.length → (l ++ l2).getD n d = l.getD n d := by
  induction l with
  | nil => intro n hn; exact absurd hn (Nat.not_lt_zero n)
  | cons a t ih =>
      intro n hn
      cases n with
      | zero => rfl
      | succ k => exact ih k (Nat.lt_of_succ_lt_succ hn)

theorem listGetD_append_self {α : Type} (l : List α) (x : α) (l2 : List α) (d : α) :
    (l ++ x :: l2).getD l.length d = x := by
  induction l with
  | nil => rfl
  | cons a t ih => exact ih

theorem listGetD_set_ne {α : Type} (l : List α) (d x : α) :
    ∀ i j, i ≠ j → (l.set i x).getD j d = l.getD j d := by
  induction l with
  | nil => intro i j _; cases i <;> rfl
  | cons a t ih =>
      intro i j hij
      cases i with
      | zero =>
          cases j with
          | zero => exact absurd rfl hij
          | succ k => rfl
      | succ i2 =>
          cases j with
          | zero => rfl
          | succ k => exact ih i2 k (fun hh => hij (by rw [hh]))

theorem listGetD_set_self {α : Type} (l : List α) (d x : α) :
    ∀ i, i < l.length → (l.set i x).getD i d = x := by
  induction l with
  | nil => intro i h; exact absurd h (Nat.not_lt_zero i)
  | cons a t ih =>
      intro i h
      cases i with
      | zero => rfl
      | succ k => exact ih k (Nat.lt_of_succ_lt_succ h)

/-- C8: the sandbox binds fresh copies of the two caller tables, never the
originals, so whatever the program does to its bound tables the caller
tables are unchanged after the call.  Conjuncts: the objects at the
caller addresses are untouched; the two bound addresses differ from both
caller addresses; and the program operated on values that started as
copies of the originals (the final bound values are its mutation
functions applied to the original values). -/
theorem C8_sandbox_copies_frame :
    ∀ (h : Heap) (ra rb : Nat) (p : MutProgram),
      ra < h.dfs.length → rb < h.dfs.length →
      ((executeOnHeap h ra rb p).1.read ra = h.read ra ∧
       (executeOnHeap h ra rb p).1.read rb = h.read rb) ∧
      ((executeOnHeap h ra rb p).2.1 ≠ ra ∧ (executeOnHeap h ra rb p).2.1 ≠ rb ∧
       (executeOnHeap h ra rb p).2.2 ≠ ra ∧ (executeOnHeap h ra rb p).2.2 ≠ rb) ∧
      ((executeOnHeap h ra rb p).1.read ((executeOnHeap h ra rb p).2.1) =
         p.mutA (h.read ra) (h.read rb) ∧
       (executeOnHeap h ra rb p).1.read ((executeOnHeap h ra rb p).2.2) =
         p.mutB (p.mutA (h.read ra) (h.read rb)) (h.read rb)) := by
  intro h ra rb p hra hrb
  -- abbreviations: aVal, bVal are the values copied into the program scope
  have hreadB : (h.dfs ++ [h.dfs.getD ra ⟨[]⟩]).getD rb ⟨[]⟩ = h.dfs.getD rb ⟨[]⟩ :=
    listGetD_append_left _ _ _ rb hrb
  have hlen1 : (h.dfs ++ [h.dfs.getD ra ⟨[]⟩]).length = h.dfs.length + 1 := by
    simp
  have hY : ((h.dfs ++ [h.dfs.getD ra ⟨[]⟩]) ++ [h.dfs.getD rb ⟨[]⟩]).getD
      h.dfs.length ⟨[]⟩ = h.dfs.getD ra ⟨[]⟩ := by
    rw [listGetD_append_left _ _ _ h.dfs.length (by simp)]
    exact listGetD_append_self h.dfs (h.dfs.getD ra ⟨[]⟩) [] ⟨[]⟩
  have hZ : ((h.dfs ++ [h.dfs.getD ra ⟨[]⟩]) ++ [h.dfs.getD rb ⟨[]⟩]).getD
      (h.dfs.length + 1) ⟨[]⟩ = h.dfs.getD rb ⟨[]⟩ := by
    rw [← hlen1]
    exact listGetD_append_self _ (h.dfs.getD rb ⟨[]⟩) [] ⟨[]⟩
  have hca : (executeOnHeap h ra rb p).2.1 = h.dfs.length := rfl
  have hcb : (executeOnHeap h ra rb p).2.2 = h.dfs.length + 1 := by
    simp only [executeOnHeap, Heap.alloc]
    exact hlen1
  have hU : (((h.dfs ++ [h.dfs.getD ra ⟨[]⟩]) ++ [h.dfs.getD rb ⟨[]⟩]).set h.dfs.length
      (p.mutA (h.dfs.getD ra ⟨[]⟩) (h.dfs.getD rb ⟨[]⟩))).getD h.dfs.length ⟨[]⟩ =
      p.mutA (h.dfs.getD ra ⟨[]⟩) (h.dfs.getD rb ⟨[]⟩) :=
    listGetD_set_self _ _ _ h.dfs.length
      (by simp only [List.length_set, List.length_append, List.length_cons,
            List.length_nil]; omega)
  have hV : (((h.dfs ++ [h.dfs.getD ra ⟨[]⟩]) ++ [h.dfs.getD rb ⟨[]⟩]).set h.dfs.length
      (p.mutA (h.dfs.getD ra ⟨[]⟩) (h.dfs.getD rb ⟨[]⟩))).getD (h.dfs.length + 1) ⟨[]⟩ =
      h.dfs.getD rb ⟨[]⟩ := by
    rw [listGetD_set_ne _ _ _ h.dfs.length (h.dfs.length + 1)
      (Nat.ne_of_lt (Nat.lt_succ_self _))]
    exact hZ
  have hne_ca_ra : h.dfs.length ≠ ra := Nat.ne_of_gt hra
  have hne_ca_rb : h.dfs.length ≠ rb := Nat.ne_of_gt hrb
  have hne_cb_ra : h.dfs.length + 1 ≠ ra :=
    Nat.ne_of_gt (Nat.lt_trans hra (Nat.lt_succ_self _))
  have hne_cb_rb : h.dfs.length + 1 ≠ rb :=
    Nat.ne_of_gt (Nat.lt_trans hrb (Nat.lt_succ_self _))
  have hlt1a : ra < (h.dfs ++ [h.dfs.getD ra ⟨[]⟩]).length := by
    rw [hlen1]
    omega
  have hlt1b : rb < (h.dfs ++ [h.dfs.getD ra ⟨[]⟩]).length := by
    rw [hlen1]
    omega
  have hlt2 : h.dfs.length + 1 <
      (((h.dfs ++ [h.dfs.getD ra ⟨[]⟩]) ++ [h.dfs.getD rb ⟨[]⟩]).set h.dfs.length
        (p.mutA (h.dfs.getD ra ⟨[]⟩) (h.dfs.getD rb ⟨[]⟩))).length := by
    rw [List.length_set, List.length_append, hlen1]
    simp
  refine ⟨⟨?_, ?_⟩, ⟨?_, ?_, ?_, ?_⟩, ?_, ?_⟩
  · show (executeOnHeap h ra rb p).1.read ra = h.read ra
    simp only [executeOnHeap, Heap.alloc, Heap.read, Heap.write, hlen1, hreadB, hY, hZ, hU, hV]
    rw [listGetD_set_ne _ _ _ _ _ hne_cb_ra, listGetD_set_ne _ _ _ _ _ hne_ca_ra,
      listGetD_append_left _ _ _ ra hlt1a, listGetD_append_left _ _ _ ra hra]
  · show (executeOnHeap h ra rb p).1.read rb = h.read rb
    simp only [executeOnHeap, Heap.alloc, Heap.read, Heap.write, hlen1, hreadB, hY, hZ, hU, hV]
    rw [listGetD_set_ne _ _ _ _ _ hne_cb_rb, listGetD_set_ne _ _ _ _ _ hne_ca_rb,
      listGetD_append_left _ _ _ rb hlt1b, listGetD_append_left _ _ _ rb hrb]
  · rw [hca]; exact hne_ca_ra
  · rw [hca]; exact hne_ca_rb
  · rw [hcb]; exact hne_cb_ra
  · rw [hcb]; exact hne_cb_rb
  · rw [hca]
    show (executeOnHeap h ra rb p).1.read h.dfs.length = _
    simp only [executeOnHeap, Heap.alloc, Heap.read, Heap.write, hlen1, hreadB, hY, hZ, hU, hV]
    rw [listGetD_set_ne _ _ _ _ _ (Nat.ne_of_gt (Nat.lt_succ_self _))]
    exact hU
  · rw [hcb]
    show (executeOnHeap h ra rb p).1.read (h.dfs.length + 1) = _
    simp only [executeOnHeap, Heap.alloc, Heap.read, Heap.write, hlen1, hreadB, hY, hZ, hU, hV]
    exact listGetD_set_self _ _ _ (h.dfs.length + 1) hlt2

/-- A two-object heap for the C8 witness. -/
def heapEx : Heap := ⟨[dfOneRow, dfEmpty]⟩

/-- A program that rewrites its bound copy of table A. -/
def mutProgEx : MutProgram := ⟨fun a _ => ⟨a.rows ++ a.rows⟩, fun _ b => b⟩

/-- Witness for C8 at a concrete heap and mutating program. -/
theorem C8_sandbox_copies_frame_witness :
    (executeOnHeap heapEx 0 1 mutProgEx).1.read 0 = heapEx.read 0 ∧
    (executeOnHeap heapEx 0 1 mutProgEx).1.read 1 = heapEx.read 1 :=
  ⟨(C8_sandbox_copies_frame heapEx 0 1 mutProgEx (by decide) (by decide)).1.1,
   (C8_sandbox_copies_frame heapEx 0 1 mutProgEx (by decide) (by decide)).1.2⟩

/-! ## Shared inversion lemmas for `execute`. -/

/-- When validation fails it reports an error message. -/
theorem validate_snd_isSome :
    ∀ c, (validate_code c).1 = false → (validate_code c).2.isSome = true := by
  intro c h
  unfold validate_code at h ⊢
  cases hf : findBlocked c with
  | none => rw [hf] at h; simp at h
  | some f => rfl

/-- Every failure dictionary returned by `execute` has success false,
match rate zero, an error message present, and the default values of the
remaining keys (absent in the source dictionary). -/
theorem execute_failure_inv :
    ∀ (platform : String) (t : Nat) (p : SandboxProgram) (dfa dfb : DataFrame)
      (r : ExecResult),
      execute platform t p dfa dfb = some r → r.success = false →
      r.match_rate = 0 ∧ r.error.isSome = true ∧ r.match_count = 0 ∧ r.total_a = 0 := by
  intro platform t p dfa dfb r he hs
  by_cases hv1 : (validate_code p.text).1 = false
  · rw [execute_invalid platform t p dfa dfb hv1, Option.some.injEq] at he
    subst he
    exact ⟨rfl, validate_snd_isSome p.text hv1, rfl, rfl⟩
  · rw [execute_valid platform t p dfa dfb hv1] at he
    cases hr : p.run dfa dfb with
    | ok b =>
        rw [hr] at he
        simp only [runPhase, Option.some.injEq] at he
        subst he
        cases hb : b.result_df with
        | none => simp [extractPhase, hb]
        | some v =>
            cases v with
            | frame d => simp [extractPhase, hb] at hs
            | other ty => simp [extractPhase, hb]
    | synErr m l =>
        rw [hr] at he
        simp only [runPhase, Option.some.injEq] at he
        subst he
        exact ⟨rfl, rfl, rfl, rfl⟩
    | raises ty m =>
        rw [hr] at he
        simp only [runPhase, Option.some.injEq] at he
        subst he
        exact ⟨rfl, rfl, rfl, rfl⟩
    | diverges =>
        rw [hr] at he
        by_cases hpw : platform = "win32"
        · simp only [runPhase, hpw, if_true] at he
          cases he
        · simp only [runPhase, hpw, if_false, Option.some.injEq] at he
          subst he
          exact ⟨rfl, rfl, rfl, rfl⟩

/-- A successful run arose from a program that ended normally with the
result variable bound to a DataFrame, and the outcome dictionary is
exactly the success dictionary of the source. -/
theorem execute_success_inv :
    ∀ (platform : String) (t : Nat) (p : SandboxProgram) (dfa dfb : DataFrame)
      (r : ExecResult),
      execute platform t p dfa dfb = some r → r.success = true →
      ∃ b rdf, p.run dfa dfb = ProgBehavior.ok b ∧
        b.result_df = some (PyValue.frame rdf) ∧
        r = { success := true
            , error := none
            , match_rate := if 0 < dfa.len then (rdf.len : ℚ) / (dfa.len : ℚ) else 0
            , result_df := some rdf
            , matched := rdf.fillnaEmpty.toRecords
            , unmatched_a := recordsOrEmpty b.unmatched_a
            , unmatched_b := recordsOrEmpty b.unmatched_b
            , match_count := rdf.len
            , total_a := dfa.len
            , total_b := dfb.len } := by
  intro platform t p dfa dfb r he hs
  by_cases hv1 : (validate_code p.text).1 = false
  · rw [execute_invalid platform t p dfa dfb hv1, Option.some.injEq] at he
    subst he
    simp at hs
  · rw [execute_valid platform t p dfa dfb hv1] at he
    cases hr : p.run dfa dfb with
    | ok b =>
        rw [hr] at he
        simp only [runPhase, Option.some.injEq] at he
        subst he
        cases hb : b.result_df with
        | none => simp [extractPhase, hb] at hs
        | some v =>
            cases v with
            | frame d =>
                refine ⟨b, d, rfl, hb, ?_⟩
                simp [extractPhase, hb]
            | other ty => simp [extractPhase, hb] at hs
    | synErr m l =>
        rw [hr] at he
        simp only [runPhase, Option.some.injEq] at he
        subst he
        simp at hs
    | raises ty m =>
        rw [hr] at he
        simp only [runPhase, Option.some.injEq] at he
        subst he
        simp at hs
    | diverges =>
        rw [hr] at he
        by_cases hpw : platform = "win32"
        · simp only [runPhase, hpw, if_true] at he
          cases he
        · simp only [runPhase, hpw, if_false, Option.some.injEq] at he
          subst he
          simp at hs

/-- The missing-result message differs from every wrong-type message. -/
theorem missing_ne_wrongType (ty : String) : missingResultMsg ≠ wrongTypeMsg ty := by
  intro hcontra
  have h2 : missingResultMsg.data.get? 0 = (wrongTypeMsg ty).data.get? 0 := by
    rw [hcontra]
  simp only [wrongTypeMsg, String.data_append] at h2
  rw [List.get?_append (by decide)] at h2
  exact absurd h2 (by decide)

/-! ## Fixture programs for witnesses and counterexamples. -/

/-- Source text of a program with a denylisted import. -/
def canaryText : String := "import os"

/-- Canary semantics: if this program were ever executed it would diverge. -/
def canaryRun : DataFrame → DataFrame → ProgBehavior := fun _ _ => ProgBehavior.diverges

/-- A non-terminating program with clean text. -/
def loopText : String := "while True:\n    pass"

/-- The non-terminating program. -/
def loopProg : SandboxProgram := ⟨loopText, fun _ _ => ProgBehavior.diverges⟩

/-- A program that raises at run time. -/
def raiseText : String := "result_df = 1 / 0"

/-- The raising program. -/
def raiseProg : SandboxProgram :=
  ⟨raiseText, fun _ _ => ProgBehavior.raises ("ZeroDivisionError") ("division by zero")⟩

/-- A program that binds a result table larger than table A. -/
def inflateText : String := "result_df = pd.concat([df_a, df_a])"

/-- The inflating program: its result table duplicates the rows of A. -/
def inflateProg : SandboxProgram :=
  ⟨inflateText, fun da _ =>
    ProgBehavior.ok ⟨some (PyValue.frame ⟨da.rows ++ da.rows⟩), none, none⟩⟩

/-- A program that returns table A unchanged as the result. -/
def identText : String := "result_df = df_a"

/-- The identity program. -/
def identProg : SandboxProgram :=
  ⟨identText, fun da _ => ProgBehavior.ok ⟨some (PyValue.frame da), none, none⟩⟩

/-- A program that never binds the result variable. -/
def noBindText : String := "x = 1"

/-- The program leaving `result_df` unbound. -/
def noBindProg : SandboxProgram := ⟨noBindText, fun _ _ => ProgBehavior.ok ⟨none, none, none⟩⟩

/-- A program that binds the result variable to a non-table value. -/
def wrongTypeText : String := "result_df = dict()"

/-- The program binding a dict to `result_df`. -/
def wrongTypeProg : SandboxProgram :=
  ⟨wrongTypeText, fun _ _ => ProgBehavior.ok ⟨some (PyValue.other ("dict")), none, none⟩⟩

/-- The offending fragment of the canary text. -/
def fragEx : String := "import os"

/-! ## Claim theorems. -/

/-- C1: for every program text in which the validator finds a denylisted
construct, `execute` returns the validation failure (success false, match
rate 0) whose error message is the fixed prefix followed by the offending
fragment, and the program is never executed: the outcome does not depend
on the behaviour of the program nor on the input tables. -/
theorem C1_validation_blocks :
    ∀ (platform : String) (t : Nat) (txt : String)
      (run1 run2 : DataFrame → DataFrame → ProgBehavior)
      (dfa dfb dfa2 dfb2 : DataFrame) (frag : String),
      findBlocked txt = some frag →
      execute platform t ⟨txt, run1⟩ dfa dfb =
        some { success := false
             , error := some ("Blocked pattern detected: " ++ frag)
             , match_rate := 0 } ∧
      execute platform t ⟨txt, run1⟩ dfa dfb = execute platform t ⟨txt, run2⟩ dfa2 dfb2 := by
  intro platform t txt run1 run2 dfa dfb dfa2 dfb2 frag hf
  have hv : validate_code txt = (false, some ("Blocked pattern detected: " ++ frag)) := by
    unfold validate_code
    rw [hf]
  have h1 : ∀ (rn : DataFrame → DataFrame → ProgBehavior) (da db : DataFrame),
      execute platform t ⟨txt, rn⟩ da db =
        some { success := false
             , error := some ("Blocked pattern detected: " ++ frag)
             , match_rate := 0 } := by
    intro rn da db
    have h2 := execute_invalid platform t ⟨txt, rn⟩ da db (by simp [hv])
    rw [h2]
    simp [hv]
  exact ⟨h1 run1 dfa dfb, by rw [h1 run1 dfa dfb, h1 run2 dfa2 dfb2]⟩

/-- Witness for C1: the canary program would diverge if it were ever
executed, yet `execute` returns the validation failure naming the
fragment. -/
theorem C1_validation_blocks_witness :
    findBlocked canaryText = some fragEx ∧
    execute ("linux") 30 ⟨canaryText, canaryRun⟩ dfOneRow dfOneRow =
      some { success := false
           , error := some ("Blocked pattern detected: " ++ fragEx)
           , match_rate := 0 } :=
  ⟨by decide,
   (C1_validation_blocks ("linux") 30 canaryText canaryRun canaryRun dfOneRow dfOneRow
      dfOneRow dfOneRow fragEx (by decide)).1⟩

/-- C2 counterexample: the claim asserts that every non-terminating program
produces a Timeout failure, with the deadline enforced from a preemptible
context regardless of behaviour and platform.  On the `win32` platform
`_timeout_handler` yields without installing any alarm, so `execute` on a
diverging program never returns (modelled by `none`) and in particular
does not return the timeout failure. -/
theorem C2_counterexample :
    execute ("win32") 30 loopProg dfOneRow dfOneRow = none ∧
    execute ("win32") 30 loopProg dfOneRow dfOneRow ≠
      some { success := false, error := some (timeoutMsg 30), match_rate := 0 } := by
  constructor
  · decide
  · decide

/-- C2 (amended): on every platform other than `win32`, a validated program
that does not terminate within the timeout is aborted by the SIGALRM
handler of `_timeout_handler` and `execute` returns the Timeout failure
(success false, match rate 0, message naming the timeout).  The mechanism
is an in-process signal handler, not a separate thread or process, and on
`win32` no deadline is enforced at all. -/
theorem C2_timeout_on_unix :
    ∀ (platform : String) (t : Nat) (p : SandboxProgram) (dfa dfb : DataFrame),
      platform ≠ "win32" →
      validate_code p.text = (true, none) →
      p.run dfa dfb = ProgBehavior.diverges →
      execute platform t p dfa dfb =
        some { success := false, error := some (timeoutMsg t), match_rate := 0 } := by
  intro platform t p dfa dfb hp hv hr
  rw [execute_valid platform t p dfa dfb (by simp [hv]), hr]
  simp [runPhase, hp]

/-- Witness for the amended C2 at a concrete diverging program. -/
theorem C2_timeout_on_unix_witness :
    execute ("linux") 30 loopProg dfOneRow dfOneRow =
      some { success := false, error := some (timeoutMsg 30), match_rate := 0 } :=
  C2_timeout_on_unix ("linux") 30 loopProg dfOneRow dfOneRow (by decide) (by decide) rfl

/-- C3 counterexample: the claimed totality is universal over programs and
tables, but a diverging program on the `win32` platform makes `execute`
never return — no ExecutionOutcome is produced at this concrete input,
because `_timeout_handler` installs no deadline there. -/
theorem C3_counterexample :
    execute ("win32") 30 loopProg dfEmpty dfEmpty = none ∧
    (execute ("win32") 30 loopProg dfEmpty dfEmpty).isSome = false := by
  constructor
  · decide
  · decide

/-- C3 (amended): `execute` is total toward its caller except in the single
non-returning case refuted above (a diverging program on `win32`, where
no deadline exists); an exception raised by the program is caught and
reported as a RuntimeError-style failure rather than propagated; and
every failure outcome carries success false, match rate 0 and an error
message. -/
theorem C3_total_no_escape :
    (∀ (platform : String) (t : Nat) (p : SandboxProgram) (dfa dfb : DataFrame),
        (platform = "win32" → p.run dfa dfb ≠ ProgBehavior.diverges) →
        (execute platform t p dfa dfb).isSome = true) ∧
    (∀ (platform : String) (t : Nat) (p : SandboxProgram) (dfa dfb : DataFrame)
        (excType msg : String),
        validate_code p.text = (true, none) →
        p.run dfa dfb = ProgBehavior.raises excType msg →
        execute platform t p dfa dfb =
          some { success := false, error := some (excType ++ ": " ++ msg), match_rate := 0 }) ∧
    (∀ (platform : String) (t : Nat) (p : SandboxProgram) (dfa dfb : DataFrame)
        (r : ExecResult),
        execute platform t p dfa dfb = some r → r.success = false →
        r.match_rate = 0 ∧ r.error.isSome = true) := by
  refine ⟨?_, ?_, ?_⟩
  · intro platform t p dfa dfb hw
    by_cases hv1 : (validate_code p.text).1 = false
    · rw [execute_invalid platform t p dfa dfb hv1]
      rfl
    · rw [execute_valid platform t p dfa dfb hv1]
      cases hr : p.run dfa dfb with
      | ok b => simp [runPhase]
      | synErr m l => simp [runPhase]
      | raises ty m => simp [runPhase]
      | diverges =>
          by_cases hpw : platform = "win32"
          · exact absurd hr (hw hpw)
          · simp [runPhase, hpw]
  · intro platform t p dfa dfb ty m hv hr
    rw [execute_valid platform t p dfa dfb (by simp [hv]), hr]
    simp [runPhase]
  · intro platform t p dfa dfb r he hs
    exact ⟨(execute_failure_inv platform t p dfa dfb r he hs).1,
           (execute_failure_inv platform t p dfa dfb r he hs).2.1⟩

/-- The failure outcome of the raising fixture program. -/
def r3fail : ExecResult :=
  { success := false
  , error := some (("ZeroDivisionError") ++ ": " ++ ("division by zero"))
  , match_rate := 0 }

/-- Witness for C3 at a concrete raising program. -/
theorem C3_total_no_escape_witness :
    (execute ("linux") 30 raiseProg dfOneRow dfOneRow).isSome = true ∧
    execute ("linux") 30 raiseProg dfOneRow dfOneRow = some r3fail ∧
    (r3fail.match_rate = 0 ∧ r3fail.error.isSome = true) :=
  ⟨C3_total_no_escape.1 ("linux") 30 raiseProg dfOneRow dfOneRow
      (fun hp => absurd hp (by decide)),
   C3_total_no_escape.2.1 ("linux") 30 raiseProg dfOneRow dfOneRow ("ZeroDivisionError")
      ("division by zero") (by decide) rfl,
   C3_total_no_escape.2.2 ("linux") 30 raiseProg dfOneRow dfOneRow r3fail
      (C3_total_no_escape.2.1 ("linux") 30 raiseProg dfOneRow dfOneRow ("ZeroDivisionError")
        ("division by zero") (by decide) rfl) rfl⟩

/-- C4 counterexample: the source computes match_rate as
`len(result_df) / len(df_a)` with no clamping, so a program binding a
result table with more rows than table A yields a match rate above 1 —
here 2 on a one-row table A. -/
theorem C4_counterexample :
    (execute ("linux") 30 inflateProg dfOneRow dfOneRow).map ExecResult.match_rate =
      some 2 ∧ ¬((2 : ℚ) ≤ 1) := by
  constructor
  · rw [execute_valid ("linux") 30 inflateProg dfOneRow dfOneRow (by decide)]
    show some ((extractPhase ⟨some (PyValue.frame ⟨dfOneRow.rows ++ dfOneRow.rows⟩),
      none, none⟩ dfOneRow dfOneRow).match_rate) = some 2
    rw [show (extractPhase ⟨some (PyValue.frame ⟨dfOneRow.rows ++ dfOneRow.rows⟩),
      none, none⟩ dfOneRow dfOneRow).match_rate =
      (if 0 < dfOneRow.len
        then ((⟨dfOneRow.rows ++ dfOneRow.rows⟩ : DataFrame).len : ℚ) / (dfOneRow.len : ℚ)
        else 0) from rfl]
    rw [if_pos (by decide)]
    norm_num [dfOneRow, DataFrame.len]
  · norm_num

/-- C4 (amended): every outcome has a nonnegative match rate, and the match
rate is at most 1 exactly in the intended regime, namely whenever the
reported match count does not exceed the reported row count of table A;
a program may bind a larger result table and push the rate above 1. -/
theorem C4_match_rate_bounds :
    ∀ (platform : String) (t : Nat) (p : SandboxProgram) (dfa dfb : DataFrame)
      (r : ExecResult),
      execute platform t p dfa dfb = some r →
      0 ≤ r.match_rate ∧ (r.match_count ≤ r.total_a → r.match_rate ≤ 1) := by
  intro platform t p dfa dfb r he
  by_cases hs : r.success = true
  · obtain ⟨b, rdf, hr, hb, hrec⟩ := execute_success_inv platform t p dfa dfb r he hs
    subst hrec
    constructor
    · show (0 : ℚ) ≤ (if 0 < dfa.len then (rdf.len : ℚ) / (dfa.len : ℚ) else 0)
      by_cases h0 : 0 < dfa.len
      · rw [if_pos h0]
        exact div_nonneg (Nat.cast_nonneg _) (Nat.cast_nonneg _)
      · rw [if_neg h0]
    · intro hle
      have hle2 : rdf.len ≤ dfa.len := hle
      show (if 0 < dfa.len then (rdf.len : ℚ) / (dfa.len : ℚ) else 0) ≤ 1
      by_cases h0 : 0 < dfa.len
      · rw [if_pos h0, div_le_one (by exact_mod_cast h0)]
        exact_mod_cast hle2
      · rw [if_neg h0]
        norm_num
  · have hsf : r.success = false := by
      cases hsb : r.success
      · rfl
      · exact absurd hsb hs
    have hf := execute_failure_inv platform t p dfa dfb r he hsf
    rw [hf.1]
    exact ⟨le_refl 0, fun _ => by norm_num⟩

/-- The missing-result failure outcome used by the C4 witness. -/
def r4fail : ExecResult :=
  { success := false, error := some missingResultMsg, match_rate := 0 }

/-- Witness for the amended C4 at a concrete failing run. -/
theorem C4_match_rate_bounds_witness :
    0 ≤ r4fail.match_rate ∧ (r4fail.match_count ≤ r4fail.total_a → r4fail.match_rate ≤ 1) :=
  C4_match_rate_bounds ("linux") 30 noBindProg dfOneRow dfOneRow r4fail (by decide)

/-- C5: the evaluator decision is the pure ordered rule of the source —
complete iff no error and the match rate reaches 0.95; otherwise
awaiting_feedback iff the iteration counter has reached the bound;
otherwise the retry status `"generating"`, which the router sends back to
code generation as `"retry"` whether the cause was an error or a low
match rate — together with the three concrete decision vectors of the
specification. -/
theorem C5_evaluator_decision :
    (∀ (e : Bool) (r : ℚ) (i m : Nat),
       (evaluate_results e r i m = "complete" ↔ (e = false ∧ 95/100 ≤ r)) ∧
       (evaluate_results e r i m = "awaiting_feedback" ↔
          (¬(e = false ∧ 95/100 ≤ r) ∧ m ≤ i)) ∧
       (evaluate_results e r i m = "generating" ↔
          (¬(e = false ∧ 95/100 ≤ r) ∧ i < m))) ∧
    (∀ (err : Option String) (r : ℚ) (i m : Nat),
       err.isSome = true ∨ r < 95/100 → i < m →
       should_continue ⟨("generating"), err, r, i, m⟩ = "retry") ∧
    evaluate_results false (95/100) 1 5 = "complete" ∧
    (∀ r : ℚ, evaluate_results true r 5 5 = "awaiting_feedback") ∧
    evaluate_results false (5/10) 2 5 = "generating" := by
  refine ⟨?_, ?_, ?_, ?_, ?_⟩
  · intro e r i m
    by_cases h1 : e = false ∧ 95/100 ≤ r
    · have hev : evaluate_results e r i m = "complete" := by
        unfold evaluate_results
        rw [if_pos h1]
      rw [hev]
      exact ⟨⟨fun _ => h1, fun _ => rfl⟩,
        ⟨fun hx => absurd hx (by decide), fun hx => absurd h1 hx.1⟩,
        ⟨fun hx => absurd hx (by decide), fun hx => absurd h1 hx.1⟩⟩
    · by_cases h2 : m ≤ i
      · have hev : evaluate_results e r i m = "awaiting_feedback" := by
          unfold evaluate_results
          rw [if_neg h1, if_pos h2]
        rw [hev]
        exact ⟨⟨fun hx => absurd hx (by decide), fun hx => absurd hx h1⟩,
          ⟨fun _ => ⟨h1, h2⟩, fun _ => rfl⟩,
          ⟨fun hx => absurd hx (by decide), fun hx => absurd hx.2 (by omega)⟩⟩
      · have h3 : i < m := by omega
        have hev : evaluate_results e r i m = "generating" := by
          unfold evaluate_results
          rw [if_neg h1, if_neg h2]
        rw [hev]
        exact ⟨⟨fun hx => absurd hx (by decide), fun hx => absurd hx h1⟩,
          ⟨fun hx => absurd hx (by decide), fun hx => absurd hx.2 (by omega)⟩,
          ⟨fun _ => ⟨h1, h3⟩, fun _ => rfl⟩⟩
  · intro err r i m hcond him
    have hs1 : ¬(("generating" : String) = "complete") := by decide
    have hs2 : ¬(("generating" : String) = "awaiting_feedback") := by decide
    have hs3 : ("generating" : String) = "generating" ∨
        ("generating" : String) = "executing" ∨
        ("generating" : String) = "evaluating" := Or.inl rfl
    simp only [should_continue]
    rw [if_neg hs1, if_neg hs2,
      if_pos (show True ∨ ("generating" : String) = "executing" ∨
        ("generating" : String) = "evaluating" from Or.inl trivial),
      if_pos hcond, if_pos him]
  · unfold evaluate_results
    rw [if_pos ⟨rfl, le_refl ((95 : ℚ)/100)⟩]
  · intro r
    unfold evaluate_results
    rw [if_neg (fun hx => Bool.noConfusion hx.1), if_pos (le_refl 5)]
  · unfold evaluate_results
    rw [if_neg (fun hx => absurd hx.2 (by norm_num)), if_neg (by omega)]

/-- Witness for C5: a concrete retry routing and a concrete completion. -/
theorem C5_evaluator_decision_witness :
    should_continue ⟨("generating"), none, (1 : ℚ)/2, 2, 5⟩ = "retry" ∧
    evaluate_results false (95/100) 1 5 = "complete" :=
  ⟨C5_evaluator_decision.2.1 none ((1 : ℚ)/2) 2 5 (Or.inr (by norm_num)) (by omega),
   C5_evaluator_decision.2.2.1⟩

/-- C6: on every successful run the reported totals are the row counts of
the result table and of the two original input tables, and the match rate
is their quotient (zero when table A is empty); in particular the
identity program scores 1 on a non-empty table A and 0 on an empty one. -/
theorem C6_success_statistics :
    (∀ (platform : String) (t : Nat) (p : SandboxProgram) (dfa dfb : DataFrame)
        (r : ExecResult),
        execute platform t p dfa dfb = some r → r.success = true →
        r.total_a = dfa.len ∧ r.total_b = dfb.len ∧
        (∃ rdf, r.result_df = some rdf ∧ r.match_count = rdf.len) ∧
        r.match_rate =
          (if 0 < dfa.len then (r.match_count : ℚ) / (dfa.len : ℚ) else 0)) ∧
    (∀ dfa dfb : DataFrame,
        (execute ("linux") 30 identProg dfa dfb).map ExecResult.match_count =
          some dfa.len ∧
        (execute ("linux") 30 identProg dfa dfb).map ExecResult.total_a = some dfa.len ∧
        (dfa.len ≠ 0 →
          (execute ("linux") 30 identProg dfa dfb).map ExecResult.match_rate = some 1) ∧
        (dfa.len = 0 →
          (execute ("linux") 30 identProg dfa dfb).map ExecResult.match_rate = some 0)) := by
  constructor
  · intro platform t p dfa dfb r he hs
    obtain ⟨b, rdf, hr, hb, hrec⟩ := execute_success_inv platform t p dfa dfb r he hs
    subst hrec
    exact ⟨rfl, rfl, ⟨rdf, rfl, rfl⟩, rfl⟩
  · intro dfa dfb
    have hx : execute ("linux") 30 identProg dfa dfb =
        some (extractPhase ⟨some (PyValue.frame dfa), none, none⟩ dfa dfb) := by
      rw [execute_valid ("linux") 30 identProg dfa dfb (by decide)]
      rfl
    refine ⟨?_, ?_, ?_, ?_⟩
    · rw [hx]
      rfl
    · rw [hx]
      rfl
    · intro h0
      rw [hx]
      show some ((extractPhase ⟨some (PyValue.frame dfa), none, none⟩ dfa dfb).match_rate) =
        some 1
      rw [show (extractPhase ⟨some (PyValue.frame dfa), none, none⟩ dfa dfb).match_rate =
        (if 0 < dfa.len then (dfa.len : ℚ) / (dfa.len : ℚ) else 0) from rfl]
      rw [if_pos (Nat.pos_of_ne_zero h0), div_self (by exact_mod_cast h0)]
    · intro h0
      rw [hx]
      show some ((extractPhase ⟨some (PyValue.frame dfa), none, none⟩ dfa dfb).match_rate) =
        some 0
      rw [show (extractPhase ⟨some (PyValue.frame dfa), none, none⟩ dfa dfb).match_rate =
        (if 0 < dfa.len then (dfa.len : ℚ) / (dfa.len : ℚ) else 0) from rfl]
      rw [if_neg (by omega)]

/-- Witness for C6: the identity program on a one-row table scores 1. -/
theorem C6_success_statistics_witness :
    (execute ("linux") 30 identProg dfOneRow dfEmpty).map ExecResult.match_rate = some 1 :=
  (C6_success_statistics.2 dfOneRow dfEmpty).2.2.1 (by decide)

/-- C7: after a validated, normally-terminating run, a missing result
binding yields the distinguished missing-result failure, a non-table
binding yields the distinguished wrong-type failure naming the actual
type, the two messages never coincide, and success implies the result
variable was bound to a table. -/
theorem C7_result_binding_contract :
    ∀ (platform : String) (t : Nat) (p : SandboxProgram) (dfa dfb : DataFrame)
      (b : SandboxBindings),
      validate_code p.text = (true, none) →
      p.run dfa dfb = ProgBehavior.ok b →
      (b.result_df = none →
        execute platform t p dfa dfb =
          some { success := false, error := some missingResultMsg, match_rate := 0 }) ∧
      (∀ typeName, b.result_df = some (PyValue.other typeName) →
        execute platform t p dfa dfb =
          some { success := false, error := some (wrongTypeMsg typeName), match_rate := 0 }) ∧
      (∀ typeName, missingResultMsg ≠ wrongTypeMsg typeName) ∧
      (∀ r, execute platform t p dfa dfb = some r → r.success = true →
        ∃ rdf, b.result_df = some (PyValue.frame rdf) ∧ r.result_df = some rdf) := by
  intro platform t p dfa dfb b hv hr
  have hx : execute platform t p dfa dfb = some (extractPhase b dfa dfb) := by
    rw [execute_valid platform t p dfa dfb (by simp [hv]), hr]
    rfl
  refine ⟨?_, ?_, missing_ne_wrongType, ?_⟩
  · intro hb
    rw [hx]
    simp [extractPhase, hb]
  · intro ty hb
    rw [hx]
    simp [extractPhase, hb]
  · intro r he hs
    obtain ⟨b2, rdf, hr2, hb2, hrec⟩ := execute_success_inv platform t p dfa dfb r he hs
    rw [hr] at hr2
    injection hr2 with hbb
    subst hbb
    refine ⟨rdf, hb2, ?_⟩
    rw [hrec]

/-- Witness for C7: the unbound-result and dict-typed fixtures produce the
two distinguished failures. -/
theorem C7_result_binding_contract_witness :
    execute ("linux") 30 noBindProg dfOneRow dfOneRow =
      some { success := false, error := some missingResultMsg, match_rate := 0 } ∧
    execute ("linux") 30 wrongTypeProg dfOneRow dfOneRow =
      some { success := false, error := some (wrongTypeMsg ("dict")), match_rate := 0 } :=
  ⟨(C7_result_binding_contract ("linux") 30 noBindProg dfOneRow dfOneRow
      ⟨none, none, none⟩ (by decide) rfl).1 rfl,
   (C7_result_binding_contract ("linux") 30 wrongTypeProg dfOneRow dfOneRow
      ⟨some (PyValue.other ("dict")), none, none⟩ (by decide) rfl).2.1 ("dict") rfl⟩

/-- C9: a session in awaiting_feedback or complete that receives feedback
first moves to `"refining"`, then `process_feedback` appends the feedback
verbatim to the reasoning trace as its own entry (under the fixed header
of the source) and hands control back to code generation with status
`"generating"`, leaving the iteration counter and the session identity
untouched. -/
theorem C9_feedback_refines :
    ∀ (s : SessionState) (fb : String),
      s.status = "awaiting_feedback" ∨ s.status = "complete" →
      (submit_feedback_set s fb).status = "refining" ∧
      (submit_feedback s fb).status = "generating" ∧
      (submit_feedback s fb).reasoning_trace =
        s.reasoning_trace ++ ["User Feedback Received:\n" ++ fb] ∧
      (submit_feedback s fb).iterations = s.iterations ∧
      (submit_feedback s fb).session_id = s.session_id := by
  intro s fb _
  exact ⟨rfl, rfl, rfl, rfl, rfl⟩

/-- A session awaiting feedback after five iterations. -/
def sessEx : SessionState := ⟨("sess-1"), ("awaiting_feedback"), none, 5, []⟩

/-- Witness for C9 at a concrete session and feedback string. -/
theorem C9_feedback_refines_witness :
    (submit_feedback_set sessEx ("use fuzzy matching")).status = "refining" ∧
    (submit_feedback sessEx ("use fuzzy matching")).status = "generating" ∧
    (submit_feedback sessEx ("use fuzzy matching")).reasoning_trace =
      sessEx.reasoning_trace ++ ["User Feedback Received:\n" ++ ("use fuzzy matching")] ∧
    (submit_feedback sessEx ("use fuzzy matching")).iterations = sessEx.iterations ∧
    (submit_feedback sessEx ("use fuzzy matching")).session_id = sessEx.session_id :=
  C9_feedback_refines sessEx ("use fuzzy matching") (Or.inl rfl)

/-- C10: when a validated run terminates normally with the result variable
bound to a table, leaving an unmatched-remainder variable unbound or
binding it to a non-table value never causes a failure: the run still
succeeds and the corresponding unmatched record list is empty. -/
theorem C10_unmatched_defaults :
    ∀ (platform : String) (t : Nat) (p : SandboxProgram) (dfa dfb : DataFrame)
      (b : SandboxBindings) (rdf : DataFrame),
      validate_code p.text = (true, none) →
      p.run dfa dfb = ProgBehavior.ok b →
      b.result_df = some (PyValue.frame rdf) →
      ((b.unmatched_a = none ∨ (∃ ty, b.unmatched_a = some (PyValue.other ty))) →
        ∃ r, execute platform t p dfa dfb = some r ∧ r.success = true ∧
          r.unmatched_a = []) ∧
      ((b.unmatched_b = none ∨ (∃ ty, b.unmatched_b = some (PyValue.other ty))) →
        ∃ r, execute platform t p dfa dfb = some r ∧ r.success = true ∧
          r.unmatched_b = []) := by
  intro platform t p dfa dfb b rdf hv hr hb
  have hx : execute platform t p dfa dfb = some (extractPhase b dfa dfb) := by
    rw [execute_valid platform t p dfa dfb (by simp [hv]), hr]
    rfl
  have hsucc : (extractPhase b dfa dfb).success = true := by
    simp [extractPhase, hb]
  constructor
  · intro hu
    refine ⟨extractPhase b dfa dfb, hx, hsucc, ?_⟩
    have hua : (extractPhase b dfa dfb).unmatched_a = recordsOrEmpty b.unmatched_a := by
      simp [extractPhase, hb]
    rw [hua]
    rcases hu with h | ⟨ty, h⟩
    · rw [h]
      rfl
    · rw [h]
      rfl
  · intro hu
    refine ⟨extractPhase b dfa dfb, hx, hsucc, ?_⟩
    have hub : (extractPhase b dfa dfb).unmatched_b = recordsOrEmpty b.unmatched_b := by
      simp [extractPhase, hb]
    rw [hub]
    rcases hu with h | ⟨ty, h⟩
    · rw [h]
      rfl
    · rw [h]
      rfl

/-- Witness for C10: the identity program binds neither unmatched variable,
yet succeeds with empty unmatched record lists. -/
theorem C10_unmatched_defaults_witness :
    (execute ("linux") 30 identProg dfOneRow dfOneRow).map ExecResult.unmatched_a =
      some [] := by
  obtain ⟨r, hr, _, hu⟩ :=
    (C10_unmatched_defaults ("linux") 30 identProg dfOneRow dfOneRow
      ⟨some (PyValue.frame dfOneRow), none, none⟩ dfOneRow (by decide) rfl rfl).1
      (Or.inl rfl)
  rw [hr]
  simp [hu]

end ReconAgent
